import Mathlib

/-!
Verification of the testnod-uploader repository against its specification.

The embedding models:
- the JSON values produced and consumed by the clients (Json), with the
  marshalling and unmarshalling behaviour of the Go encoding/json package
  restricted to the concrete struct types of the repository;
- the registration client CreateTestRun from
  src/internal/testnod/testnod.go, including its retry loop, which the code
  configures through the retry-go library with Delay(1000), Attempts(3) and
  LastErrorOnly(true);
- the per-attempt PUT construction of the file-upload client and its
  retried wrapper;
- the JUnit XML validator ValidateJUnitXMLFile from
  src/internal/validation/validation.go.

Machine-integer overflow never matters here (statuses, sizes and delays are
small), so Go ints are modelled as Nat or Int directly.
-/

namespace TestnodUploader

/-- JSON values, as produced and consumed by the Go encoding/json package.
Numbers are restricted to integers because every numeric field of the
repository structs is a Go int. -/
inductive Json where
  | null : Json
  | bool : Bool → Json
  | num : Int → Json
  | str : String → Json
  | arr : List Json → Json
  | obj : List (String × Json) → Json

/-- Go json.Unmarshal keeps the last occurrence of a duplicated key, so
field lookup folds left, later pairs overriding earlier ones. -/
def jsonFieldLast (fields : List (String × Json)) (key : String) : Option Json :=
  fields.foldl (fun acc kv => if kv.1 = key then some kv.2 else acc) none

/-- Lookup of a key in a JSON object; any other JSON value has no fields. -/
def jsonLookup : Json → String → Option Json
  | Json.obj fields, key => jsonFieldLast fields key
  | _, _ => none

/-- Decoding a JSON value into a Go int field: a missing key or a JSON null
leaves the zero value, a number is taken as is, anything else is a decode
error (none). -/
def jsonIntField (fields : List (String × Json)) (key : String) : Option Int :=
  match jsonFieldLast fields key with
  | none => some 0
  | some Json.null => some 0
  | some (Json.num n) => some n
  | some _ => none

/-- Decoding a JSON value into a Go string field: a missing key or a JSON
null leaves the zero value, a string is taken as is, anything else is a
decode error (none). -/
def jsonStrField (fields : List (String × Json)) (key : String) : Option String :=
  match jsonFieldLast fields key with
  | none => some ""
  | some Json.null => some ""
  | some (Json.str s) => some s
  | some _ => none

/-- Tags from src/internal/testnod/testnod.go: one tag value, serialized
under the key value. -/
structure Tags where
  value : String
deriving DecidableEq

/-- TestRunMetadata from src/internal/testnod/testnod.go. -/
structure TestRunMetadata where
  branch : String
  commitSHA : String
  runURL : String
deriving DecidableEq

/-- TestRun from src/internal/testnod/testnod.go. -/
structure TestRun where
  metadata : TestRunMetadata
deriving DecidableEq

/-- CreateTestRunRequest from src/internal/testnod/testnod.go. The Go field
Tags has type slice-of-Tags; a Go slice is either nil or a (possibly empty)
sequence, and json.Marshal distinguishes the two, so the field is modelled
as an Option carrying the sequence, none standing for the nil slice. -/
structure CreateTestRunRequest where
  tags : Option (List Tags)
  testRun : TestRun
deriving DecidableEq

/-- SuccessfulServerResponse from src/internal/testnod/testnod.go (the
registration response envelope; the spec calls it RegistrationResponse). -/
structure SuccessfulServerResponse where
  id : Int
  project : String
  testRunURL : String
  presignedURL : String
deriving DecidableEq

/-- FailedServerResponse from src/internal/testnod/testnod.go. -/
structure FailedServerResponse where
  errorMsg : String
deriving DecidableEq

/-- Marshalling of one tag, per the json tags on the Tags struct. -/
def Tags.marshal (t : Tags) : Json :=
  Json.obj [("value", Json.str t.value)]

/-- Go json.Marshal renders a nil slice as null and a non-nil slice as an
array. -/
def marshalTagsSlice : Option (List Tags) → Json
  | none => Json.null
  | some ts => Json.arr (ts.map Tags.marshal)

/-- Marshalling of the metadata struct, per its json tags. -/
def TestRunMetadata.marshal (m : TestRunMetadata) : Json :=
  Json.obj [("branch", Json.str m.branch),
            ("commit_sha", Json.str m.commitSHA),
            ("run_url", Json.str m.runURL)]

/-- Marshalling of the whole request body, per the json tags on
CreateTestRunRequest and TestRun. -/
def CreateTestRunRequest.marshal (r : CreateTestRunRequest) : Json :=
  Json.obj [("tags", marshalTagsSlice r.tags),
            ("test_run", Json.obj [("metadata", TestRunMetadata.marshal r.testRun.metadata)])]

/-- Decoding a JSON value into SuccessfulServerResponse, following Go
json.Unmarshal on that struct: an object is decoded field by field, with
unknown keys ignored, missing keys keeping the zero value, and a type
mismatch on a known key an error; a top-level JSON null is a no-op success
that leaves the struct at its zero value; any other JSON value is a type
error. -/
def decodeSuccessfulServerResponse : Json → Option SuccessfulServerResponse
  | Json.obj fields => do
    let i ← jsonIntField fields "id"
    let p ← jsonStrField fields "project"
    let t ← jsonStrField fields "test_run_url"
    let u ← jsonStrField fields "presigned_url"
    some ⟨i, p, t, u⟩
  | Json.null => some ⟨0, "", "", ""⟩
  | _ => none

/-- Decoding a JSON value into FailedServerResponse, following Go
json.Unmarshal on that struct: as above, a top-level JSON null succeeds
leaving the zero value. -/
def decodeFailedServerResponse : Json → Option FailedServerResponse
  | Json.obj fields => (jsonStrField fields "error_message").map FailedServerResponse.mk
  | Json.null => some ⟨""⟩
  | _ => none

/-- An HTTP body as seen by json.NewDecoder(...).Decode: none stands for a
body that yields no JSON value (empty body or malformed JSON), some j for a
body whose first JSON value is j. -/
def optDecodeSuccessful : Option Json → Option SuccessfulServerResponse
  | none => none
  | some j => decodeSuccessfulServerResponse j

/-- Decoding of a failure envelope from an optional body, as above. -/
def optDecodeFailed : Option Json → Option FailedServerResponse
  | none => none
  | some j => decodeFailedServerResponse j

/-- Outcome of one HTTP attempt of the registration client, as observed by
the closure passed to retry.Do in CreateTestRun: either a transport error
(client.Do returned an error) or a response with its status code, its body
and its status line (the Go field resp.Status, used in the error message). -/
inductive AttemptOutcome where
  | transportError (msg : String)
  | response (status : Nat) (body : Option Json) (statusLine : String)

/-- Error returned by one execution of the retried closure in CreateTestRun
(src/internal/testnod/testnod.go lines 51-73): a transport failure is
wrapped, a non-201 status yields the received non-OK message built from the
status line, and a 201 response succeeds. -/
def attemptError : AttemptOutcome → Option String
  | AttemptOutcome.transportError m => some ("failed to perform request: " ++ m)
  | AttemptOutcome.response status _ statusLine =>
      if status ≠ 201 then some ("received non-OK response: " ++ statusLine) else none

/-- Result of the retry.Do loop: how many attempts ran, the sleeps (in
nanoseconds) performed between consecutive attempts, and the error of the
last attempt when every attempt failed (none on success, matching
LastErrorOnly(true)). -/
structure RetryResult where
  attemptsMade : Nat
  delaysNs : List Nat
  lastError : Option String
deriving DecidableEq

/-- The retry.Do loop of the retry-go library, specialised to the options
the repository uses: fn is the retried closure indexed by attempt number, d
gives the sleep (in nanoseconds) after a failed attempt, and the loop stops
at the first success or after exhausting the remaining attempt budget. No
sleep follows the final attempt. -/
def retryStep (fn : Nat → Option String) (d : Nat → Nat) : Nat → Nat → RetryResult
  | _, 0 => ⟨0, [], none⟩
  | n, r + 1 =>
    match fn n with
    | none => ⟨1, [], none⟩
    | some e =>
      if r = 0 then ⟨1, [], some e⟩
      else
        let rest := retryStep fn d (n + 1) r
        ⟨rest.attemptsMade + 1, d n :: rest.delaysNs, rest.lastError⟩

/-- Inter-attempt sleep of CreateTestRun in nanoseconds. The code passes the
untyped constant 1000 to retry.Delay, whose parameter is a Go time.Duration
counted in nanoseconds, so the configured base delay is 1000 ns; the
retry-go default delay type (kept by the code) combines exponential backoff
on that base, capped at shifts of 62 minus log2 of the base (53 for a base
of 1000), with a random jitter drawn below the default maxJitter of 100 ms.
The jitter draw is a parameter of the model. -/
def retryDelayNs (jitter : Nat → Nat) (n : Nat) : Nat :=
  1000 * 2 ^ min n 53 + jitter n

/-- Upper bound (exclusive) of the jitter draws: the retry-go default
maxJitter of 100 ms, in nanoseconds. -/
def maxJitterNs : Nat := 100000000

/-- Result of CreateTestRun: attempts made, inter-attempt sleeps, and the
returned value or error. -/
structure CreateTestRunOutput where
  attemptsMade : Nat
  delaysNs : List Nat
  result : Except String SuccessfulServerResponse

/-- CreateTestRun from src/internal/testnod/testnod.go, lines 42-104. The
server behaviour maps attempt numbers to outcomes; jitter is the random
draw of the retry delays. The retry loop runs the closure up to 3 total
attempts (retry.Attempts(3)) and keeps only the last error
(retry.LastErrorOnly(true)). On loop success the captured resp is the
response of the last attempt, necessarily with status 201, and its body is
decoded into SuccessfulServerResponse; the non-201 branch after the loop
(lines 89-96), which would decode the failure envelope, is kept although
the loop makes it unreachable. A decode failure is the fatal failed to
decode response body error and triggers no further attempt. -/
def CreateTestRun (server : Nat → AttemptOutcome) (jitter : Nat → Nat) : CreateTestRunOutput :=
  let rr := retryStep (fun n => attemptError (server n)) (retryDelayNs jitter) 0 3
  match rr.lastError with
  | some e => ⟨rr.attemptsMade, rr.delaysNs, Except.error e⟩
  | none =>
    match server (rr.attemptsMade - 1) with
    | AttemptOutcome.transportError m =>
      ⟨rr.attemptsMade, rr.delaysNs, Except.error ("failed to perform request: " ++ m)⟩
    | AttemptOutcome.response status body _ =>
      if status ≠ 201 then
        match optDecodeFailed body with
        | none => ⟨rr.attemptsMade, rr.delaysNs, Except.error "failed to decode response body"⟩
        | some f =>
          ⟨rr.attemptsMade, rr.delaysNs, Except.error ("received non-OK response: " ++ f.errorMsg)⟩
      else
        match optDecodeSuccessful body with
        | none => ⟨rr.attemptsMade, rr.delaysNs, Except.error "failed to decode response body"⟩
        | some s => ⟨rr.attemptsMade, rr.delaysNs, Except.ok s⟩

/-- The outgoing file-upload request as the upload client constructs it. -/
structure PutRequest where
  method : String
  url : String
  contentType : String
  contentLength : Nat
deriving DecidableEq

/-- Construction of the PUT request in the upload client (the per-attempt
code of UploadJUnitXmlFile): a PUT to the presigned URL whose ContentLength
is set to the file size obtained from Stat, with a Content-Type of
application/xml, so that the body is not sent chunked. -/
def mkUploadRequest (fileSize : Nat) (presignedURL : String) : PutRequest :=
  { method := "PUT"
    url := presignedURL
    contentType := "application/xml"
    contentLength := fileSize }

/-- Outcome of one PUT attempt of the upload client: a transport error or a
response with its status code (no response body is parsed). -/
inductive UploadOutcome where
  | transportError (msg : String)
  | response (status : Nat)
deriving DecidableEq

/-- Error of one PUT attempt, from the upload client: a transport failure
is wrapped as failed to upload file, and a non-200 status yields the failed
to upload file error; a 200 response succeeds. -/
def uploadAttemptError : UploadOutcome → Option String
  | UploadOutcome.transportError m => some ("failed to upload file: " ++ m)
  | UploadOutcome.response status =>
      if status ≠ 200 then some "failed to upload file" else none

/-- Fixed inter-attempt delay of the upload client in nanoseconds: 1000 ms
per the specification of its retry policy. -/
def uploadRetryDelayNs : Nat := 1000000000

/-- Result of UploadJUnitXmlFile: attempts made, the PUT requests sent (one
per attempt), inter-attempt sleeps, and success or the last error. -/
structure UploadRunOutput where
  attemptsMade : Nat
  requestsSent : List PutRequest
  delaysNs : List Nat
  result : Except String Unit

/-- Modelled from the spec: the retried two-argument upload client
UploadJUnitXmlFile(filePath, presignedURL) called by main.go and exercised
by upload_test.go is not among the source files (the source tree only holds
earlier revisions of upload.go whose PUT is not retried). Per the spec,
each attempt re-opens the file from its start and sends the PUT built as in
mkUploadRequest, any transport failure or non-200 response is retried with
a fixed 1000 ms delay for up to 3 total attempts, only the last error is
surfaced, and a 200 response returns success with no body parsed. The file
is modelled by its size; the server behaviour maps attempt numbers to
outcomes. -/
def UploadJUnitXmlFile (fileSize : Nat) (presignedURL : String)
    (server : Nat → UploadOutcome) : UploadRunOutput :=
  let rr := retryStep (fun n => uploadAttemptError (server n)) (fun _ => uploadRetryDelayNs) 0 3
  { attemptsMade := rr.attemptsMade
    requestsSent := List.replicate rr.attemptsMade (mkUploadRequest fileSize presignedURL)
    delaysNs := rr.delaysNs
    result := match rr.lastError with
      | none => Except.ok ()
      | some e => Except.error e }

/-- One token of the XML token stream, as the validator observes it: a
start element carries its local name, every other token kind is irrelevant
to the scan. -/
inductive XmlToken where
  | startElement (localName : String)
  | otherToken
deriving DecidableEq

/-- The XML token stream of a file: the tokens the decoder yields in order,
then either a clean end of document (terminal none, the EOF case) or a
parse error with its message (terminal some). -/
structure XmlStream where
  tokens : List XmlToken
  terminal : Option String
deriving DecidableEq

/-- The scanning loop of ValidateJUnitXMLFile
(src/internal/validation/validation.go lines 20-43): consume every token,
setting the flag on a start element whose local name is testsuite; a
non-EOF decoder error aborts with the parsing error; at EOF, fail unless
the flag was set. -/
def tokenLoop (hasTestSuite : Bool) : List XmlToken → Option String → Except String Unit
  | [], some msg => Except.error ("error parsing XML: " ++ msg)
  | [], none =>
      if !hasTestSuite then Except.error "doesn't seem to be a valid JUnit XML file"
      else Except.ok ()
  | XmlToken.startElement name :: rest, term =>
      tokenLoop (if name = "testsuite" then true else hasTestSuite) rest term
  | XmlToken.otherToken :: rest, term => tokenLoop hasTestSuite rest term

/-- ValidateJUnitXMLFile from src/internal/validation/validation.go: the
input is none when the file cannot be opened, otherwise the token stream of
the file. -/
def ValidateJUnitXMLFile : Option XmlStream → Except String Unit
  | none => Except.error "failed to open file"
  | some s => tokenLoop false s.tokens s.terminal

/-- Whether the first character list occurs at the head of the second. -/
def charListStartsWith : List Char → List Char → Bool
  | [], _ => true
  | _ :: _, [] => false
  | a :: as, b :: bs => a = b && charListStartsWith as bs

/-- Whether the first character list occurs anywhere inside the second. -/
def charListContains (pat : List Char) : List Char → Bool
  | [] => pat.isEmpty
  | c :: cs => charListStartsWith pat (c :: cs) || charListContains pat cs

/-- Whether sub occurs as a contiguous substring of s. -/
def strContains (s sub : String) : Bool :=
  charListContains sub.toList s.toList

/-- The registration response body used by the concrete scenarios below. -/
def okBody : Json :=
  Json.obj [("id", Json.num 123), ("project", Json.str "p"),
            ("test_run_url", Json.str "u1"), ("presigned_url", Json.str "u2")]

/-- Server behaviour for the first registration scenario: status 500 on the
first two attempts, then 201 with a valid body. -/
def flakyServer : Nat → AttemptOutcome
  | 0 => AttemptOutcome.response 500 none "500 Internal Server Error"
  | 1 => AttemptOutcome.response 500 none "500 Internal Server Error"
  | _ => AttemptOutcome.response 201 (some okBody) "201 Created"

/-- A failure envelope with a remote-provided message. -/
def rejectionEnvelope : Json :=
  Json.obj [("error_message", Json.str "Invalid token provided")]

/-- Server behaviour that always rejects with status 400 and a decodable
failure envelope. -/
def rejectingServer : Nat → AttemptOutcome :=
  fun _ => AttemptOutcome.response 400 (some rejectionEnvelope) "400 Bad Request"

/-- The request built when no tag flag is passed and every metadata flag is
empty: the tags slice is nil (Go zero value, as in main.go) and the
metadata strings are empty. -/
def nilTagsRequest : CreateTestRunRequest :=
  ⟨none, ⟨⟨"", "", ""⟩⟩⟩

/-- The same request with an explicitly non-nil empty tags slice. -/
def emptySliceTagsRequest : CreateTestRunRequest :=
  ⟨some [], ⟨⟨"", "", ""⟩⟩⟩

/-- Upload server behaviour that fails the first two PUT attempts (once by
status, once by transport) and succeeds on the third. -/
def flakyUploadServer : Nat → UploadOutcome
  | 0 => UploadOutcome.response 500
  | 1 => UploadOutcome.transportError "connection refused"
  | _ => UploadOutcome.response 200

/-- Unfolding of the retry loop at its entry point (attempt 0 of 3). -/
theorem retryStep_unfold_a (fn : Nat → Option String) (d : Nat → Nat) :
    retryStep fn d 0 3 =
      (match fn 0 with
        | none => (⟨1, [], none⟩ : RetryResult)
        | some _ =>
          let rest := retryStep fn d 1 2
          ⟨rest.attemptsMade + 1, d 0 :: rest.delaysNs, rest.lastError⟩) := rfl

/-- Unfolding of the retry loop at its second attempt (attempt 1 of 3). -/
theorem retryStep_unfold_b (fn : Nat → Option String) (d : Nat → Nat) :
    retryStep fn d 1 2 =
      (match fn 1 with
        | none => (⟨1, [], none⟩ : RetryResult)
        | some _ =>
          let rest := retryStep fn d 2 1
          ⟨rest.attemptsMade + 1, d 1 :: rest.delaysNs, rest.lastError⟩) := rfl

/-- Unfolding of the retry loop at its final attempt (attempt 2 of 3). -/
theorem retryStep_unfold_c (fn : Nat → Option String) (d : Nat → Nat) :
    retryStep fn d 2 1 =
      (match fn 2 with
        | none => (⟨1, [], none⟩ : RetryResult)
        | some e => ⟨1, [], some e⟩) := rfl

/-- The scanning loop accepts exactly when the stream ends in EOF and the
flag is already set or a testsuite start element occurs among the remaining
tokens. -/
theorem tokenLoop_ok_iff (ts : List XmlToken) (term : Option String) (h : Bool) :
    tokenLoop h ts term = Except.ok () ↔
      term = none ∧ (h = true ∨ XmlToken.startElement "testsuite" ∈ ts) := by
  induction ts generalizing h with
  | nil =>
    cases term with
    | none => cases h <;> simp [tokenLoop]
    | some msg => simp [tokenLoop]
  | cons t rest ih =>
    cases t with
    | startElement name =>
      by_cases hn : name = "testsuite"
      · subst hn
        simp [tokenLoop, ih]
      · simp [tokenLoop, hn, ih, Ne.symm hn]
    | otherToken => simp [tokenLoop, ih]

/-- When the stream terminates in a parse error, the scanning loop returns
that parse error whatever the tokens and the flag. -/
theorem tokenLoop_error_of_terminal (ts : List XmlToken) (msg : String) (h : Bool) :
    tokenLoop h ts (some msg) = Except.error ("error parsing XML: " ++ msg) := by
  induction ts generalizing h with
  | nil => rfl
  | cons t rest ih =>
    cases t with
    | startElement name => simp [tokenLoop, ih]
    | otherToken => simp [tokenLoop, ih]

/-- Claim C1 (code bug): against a server returning 500 twice then 201 with
a valid body, CreateTestRun does make exactly 3 attempts and does return
the decoded body, but the two inter-attempt sleeps never total the claimed
2 seconds: whatever jitter retry-go draws (each draw below its 100 ms
maxJitter), their sum stays below 2e9 ns, because the code passes the
untyped constant 1000 to retry.Delay and a Go time.Duration counts
nanoseconds, so the configured base delay is 1 microsecond, not the 1000 ms
the claim (and the comment in the repository test) states. -/
theorem createTestRun_c1_flaky_server (jitter : Nat → Nat)
    (hj : ∀ n, jitter n < maxJitterNs) :
    (CreateTestRun flakyServer jitter).attemptsMade = 3 ∧
    (CreateTestRun flakyServer jitter).result = Except.ok ⟨123, "p", "u1", "u2"⟩ ∧
    (CreateTestRun flakyServer jitter).delaysNs.sum < 2000000000 := by
  refine ⟨rfl, rfl, ?_⟩
  have h0 := hj 0
  have h1 := hj 1
  have hd : (CreateTestRun flakyServer jitter).delaysNs
      = [1000 + jitter 0, 2000 + jitter 1] := rfl
  rw [hd]
  simp only [List.sum_cons, List.sum_nil, maxJitterNs] at *
  omega

/-- Claim C1 witness: the zero-jitter instance of the scenario. -/
theorem createTestRun_c1_flaky_server_witness :
    (CreateTestRun flakyServer fun _ => 0).attemptsMade = 3 ∧
    (CreateTestRun flakyServer fun _ => 0).result = Except.ok ⟨123, "p", "u1", "u2"⟩ ∧
    (CreateTestRun flakyServer fun _ => 0).delaysNs.sum < 2000000000 :=
  createTestRun_c1_flaky_server (fun _ => 0) (fun _ => by norm_num [maxJitterNs])

/-- Claim C2 (spec-modelled): when the upload server fails the first two
PUT attempts (by transport error or by a non-200 status) and answers 200 on
the third, UploadJUnitXmlFile makes exactly 3 PUT attempts, sleeping the
fixed upload retry delay between consecutive attempts, and returns
success. -/
theorem uploadJUnitXmlFile_retries_to_success (size : Nat) (url : String)
    (server : Nat → UploadOutcome)
    (h0 : uploadAttemptError (server 0) ≠ none)
    (h1 : uploadAttemptError (server 1) ≠ none)
    (h2 : server 2 = UploadOutcome.response 200) :
    (UploadJUnitXmlFile size url server).attemptsMade = 3 ∧
    (UploadJUnitXmlFile size url server).requestsSent
      = List.replicate 3 (mkUploadRequest size url) ∧
    (UploadJUnitXmlFile size url server).delaysNs = [uploadRetryDelayNs, uploadRetryDelayNs] ∧
    (UploadJUnitXmlFile size url server).result = Except.ok () := by
  obtain ⟨e0, he0⟩ := Option.ne_none_iff_exists.mp h0
  obtain ⟨e1, he1⟩ := Option.ne_none_iff_exists.mp h1
  have he2 : uploadAttemptError (server 2) = none := by
    rw [h2]
    simp [uploadAttemptError]
  refine ⟨?_, ?_, ?_, ?_⟩ <;>
    simp [UploadJUnitXmlFile, retryStep_unfold_a, retryStep_unfold_b, retryStep_unfold_c,
      ← he0, ← he1, he2]

/-- Claim C2 witness: a concrete upload server failing by status, then by
transport, then succeeding. -/
theorem uploadJUnitXmlFile_retries_to_success_witness :
    (UploadJUnitXmlFile 23 "https://s3.example/presigned" flakyUploadServer).attemptsMade = 3 ∧
    (UploadJUnitXmlFile 23 "https://s3.example/presigned" flakyUploadServer).requestsSent
      = List.replicate 3 (mkUploadRequest 23 "https://s3.example/presigned") ∧
    (UploadJUnitXmlFile 23 "https://s3.example/presigned" flakyUploadServer).delaysNs
      = [uploadRetryDelayNs, uploadRetryDelayNs] ∧
    (UploadJUnitXmlFile 23 "https://s3.example/presigned" flakyUploadServer).result
      = Except.ok () :=
  uploadJUnitXmlFile_retries_to_success 23 "https://s3.example/presigned" flakyUploadServer
    (by decide) (by decide) rfl

/-- Claim C3 counterexample: against a server that always answers 400 with
a decodable failure envelope carrying the message Invalid token provided,
CreateTestRun returns the status-line error of the last attempt, and that
terminal error does not contain the remote-provided message, refuting the
claim that it does. -/
theorem createTestRun_envelope_not_in_terminal_error :
    decodeFailedServerResponse rejectionEnvelope = some ⟨"Invalid token provided"⟩ ∧
    (CreateTestRun rejectingServer fun _ => 0).result
      = Except.error "received non-OK response: 400 Bad Request" ∧
    strContains "received non-OK response: 400 Bad Request" "Invalid token provided" = false :=
  ⟨rfl, rfl, rfl⟩

/-- Claim C3 (amended): when every attempt receives a non-201 status, the
terminal error of CreateTestRun is the received non-OK message built from
the status line of the last response, independent of the response bodies;
the post-loop branch that would decode the failure envelope is unreachable,
so the remote-provided message is never included. -/
theorem createTestRun_all_fail_last_status_line (status : Nat → Nat)
    (bodies : Nat → Option Json) (lines : Nat → String) (jitter : Nat → Nat)
    (h : ∀ n, status n ≠ 201) :
    (CreateTestRun (fun n => AttemptOutcome.response (status n) (bodies n) (lines n))
        jitter).attemptsMade = 3 ∧
    (CreateTestRun (fun n => AttemptOutcome.response (status n) (bodies n) (lines n))
        jitter).result = Except.error ("received non-OK response: " ++ lines 2) := by
  have hfn : ∀ n, attemptError (AttemptOutcome.response (status n) (bodies n) (lines n))
      = some ("received non-OK response: " ++ lines n) := fun n => by
    simp [attemptError, h n]
  refine ⟨?_, ?_⟩ <;>
    simp [CreateTestRun, retryStep_unfold_a, retryStep_unfold_b, retryStep_unfold_c,
      hfn 0, hfn 1, hfn 2]

/-- Claim C3 witness: the rejecting server instantiated concretely. -/
theorem createTestRun_all_fail_last_status_line_witness :
    (CreateTestRun (fun _ => AttemptOutcome.response 400 (some rejectionEnvelope)
        "400 Bad Request") fun _ => 0).attemptsMade = 3 ∧
    (CreateTestRun (fun _ => AttemptOutcome.response 400 (some rejectionEnvelope)
        "400 Bad Request") fun _ => 0).result
      = Except.error ("received non-OK response: " ++ "400 Bad Request") :=
  createTestRun_all_fail_last_status_line (fun _ => 400) (fun _ => some rejectionEnvelope)
    (fun _ => "400 Bad Request") (fun _ => 0) (fun _ => by norm_num)

/-- Claim C4: against a server that always answers status 500, CreateTestRun
makes exactly 3 attempts and returns the single error built from the status
line of the last (third) response; the errors of the earlier attempts do
not appear in the returned error, which mentions only the last status
line. -/
theorem createTestRun_always_500_three_attempts (bodies : Nat → Option Json)
    (lines : Nat → String) (jitter : Nat → Nat) :
    (CreateTestRun (fun n => AttemptOutcome.response 500 (bodies n) (lines n))
        jitter).attemptsMade = 3 ∧
    (CreateTestRun (fun n => AttemptOutcome.response 500 (bodies n) (lines n))
        jitter).result = Except.error ("received non-OK response: " ++ lines 2) :=
  ⟨rfl, rfl⟩

/-- Claim C5: when the first k attempts fail and attempt k (k below 3)
receives a 201 whose body does not decode as a SuccessfulServerResponse
(including an absent or empty body), CreateTestRun stops after attempt k + 1
in total - no retry for the decode failure - and returns the failed to
decode response body error. -/
theorem createTestRun_decode_failure_fatal (server : Nat → AttemptOutcome)
    (jitter : Nat → Nat) (k : Nat) (body : Option Json) (line : String)
    (hk : k < 3)
    (hfail : ∀ i, i < k → attemptError (server i) ≠ none)
    (hs : server k = AttemptOutcome.response 201 body line)
    (hdec : optDecodeSuccessful body = none) :
    (CreateTestRun server jitter).attemptsMade = k + 1 ∧
    (CreateTestRun server jitter).result = Except.error "failed to decode response body" := by
  have hok : attemptError (AttemptOutcome.response 201 body line) = none := by
    simp [attemptError]
  interval_cases k
  · refine ⟨?_, ?_⟩ <;>
      simp [CreateTestRun, retryStep_unfold_a, retryStep_unfold_b, retryStep_unfold_c,
        hok, hs, hdec]
  · obtain ⟨e0, he0⟩ := Option.ne_none_iff_exists.mp (hfail 0 (by norm_num))
    refine ⟨?_, ?_⟩ <;>
      simp [CreateTestRun, retryStep_unfold_a, retryStep_unfold_b, retryStep_unfold_c,
        ← he0, hok, hs, hdec]
  · obtain ⟨e0, he0⟩ := Option.ne_none_iff_exists.mp (hfail 0 (by norm_num))
    obtain ⟨e1, he1⟩ := Option.ne_none_iff_exists.mp (hfail 1 (by norm_num))
    refine ⟨?_, ?_⟩ <;>
      simp [CreateTestRun, retryStep_unfold_a, retryStep_unfold_b, retryStep_unfold_c,
        ← he0, ← he1, hok, hs, hdec]

/-- Claim C5 witness: a first-attempt 201 with an empty body stops after a
single attempt with the decode error. -/
theorem createTestRun_decode_failure_fatal_witness :
    (CreateTestRun (fun _ => AttemptOutcome.response 201 none "201 Created")
        fun _ => 0).attemptsMade = 0 + 1 ∧
    (CreateTestRun (fun _ => AttemptOutcome.response 201 none "201 Created")
        fun _ => 0).result = Except.error "failed to decode response body" :=
  createTestRun_decode_failure_fatal (fun _ => AttemptOutcome.response 201 none "201 Created")
    (fun _ => 0) 0 none "201 Created" (by norm_num)
    (fun i hi => absurd hi (Nat.not_lt_zero i)) rfl rfl

/-- Claim C6 counterexample: for the request built with no tags (a nil Go
slice, as main.go builds it when no tag flag is passed) and empty metadata,
the serialized body maps the tags key to JSON null, not to the empty
sequence the claim requires. -/
theorem createTestRunRequest_nil_tags_marshals_null :
    jsonLookup (CreateTestRunRequest.marshal nilTagsRequest) "tags" = some Json.null ∧
    some Json.null ≠ some (Json.arr ([] : List Json)) :=
  ⟨rfl, fun h => Json.noConfusion (Option.some.inj h)⟩

/-- Claim C6 (amended): serializing the no-tags request with empty metadata
produces a body whose tags key is null when the tags slice is nil (the
default construction) and the empty sequence only when the slice is
explicitly non-nil empty; in both cases the metadata fields are present as
empty strings. -/
theorem createTestRunRequest_empty_marshal :
    CreateTestRunRequest.marshal nilTagsRequest
      = Json.obj [("tags", Json.null),
          ("test_run", Json.obj [("metadata",
            Json.obj [("branch", Json.str ""), ("commit_sha", Json.str ""),
                      ("run_url", Json.str "")])])] ∧
    CreateTestRunRequest.marshal emptySliceTagsRequest
      = Json.obj [("tags", Json.arr []),
          ("test_run", Json.obj [("metadata",
            Json.obj [("branch", Json.str ""), ("commit_sha", Json.str ""),
                      ("run_url", Json.str "")])])] :=
  ⟨rfl, rfl⟩

/-- Claim C7: every PUT request the upload client sends for a file of size
N carries a content length equal to N exactly, whatever the server does
and however many attempts run. -/
theorem uploadRequest_content_length_eq_size (size : Nat) (url : String)
    (server : Nat → UploadOutcome) (req : PutRequest)
    (h : req ∈ (UploadJUnitXmlFile size url server).requestsSent) :
    req.contentLength = size := by
  simp only [UploadJUnitXmlFile, List.mem_replicate] at h
  rw [h.2]
  rfl

/-- Claim C7 witness: the empty file (N = 0) still yields a request whose
content length is 0. -/
theorem uploadRequest_content_length_eq_size_witness :
    (mkUploadRequest 0 "https://s3.example/presigned").contentLength = 0 :=
  uploadRequest_content_length_eq_size 0 "https://s3.example/presigned"
    (fun _ => UploadOutcome.response 200) (mkUploadRequest 0 "https://s3.example/presigned")
    (by decide)

/-- Claim C8: ValidateJUnitXMLFile succeeds exactly when the file opened and
its token stream reached end-of-document without a parse error with at
least one start element named testsuite among its tokens; an unopenable
file or a malformed stream therefore fails. -/
theorem validateJUnitXMLFile_ok_iff (input : Option XmlStream) :
    ValidateJUnitXMLFile input = Except.ok () ↔
      ∃ s, input = some s ∧ s.terminal = none ∧
        XmlToken.startElement "testsuite" ∈ s.tokens := by
  cases input with
  | none => simp [ValidateJUnitXMLFile]
  | some s => simp [ValidateJUnitXMLFile, tokenLoop_ok_iff]

/-- Claim C9: decoding the concrete registration response with id 123,
project p, test run URL u1 and presigned URL u2 yields exactly those four
field values, with no coercion and no defaulting. -/
theorem successfulServerResponse_decode_exact :
    decodeSuccessfulServerResponse okBody = some ⟨123, "p", "u1", "u2"⟩ := rfl

/-- Claim C10: the validator never succeeds without consuming the whole
token stream: if the stream contains a testsuite start element but ends in
a parse error, ValidateJUnitXMLFile returns that parse error, not
success. -/
theorem validateJUnitXMLFile_error_after_testsuite (s : XmlStream) (msg : String)
    (hterm : s.terminal = some msg)
    (hts : XmlToken.startElement "testsuite" ∈ s.tokens) :
    ValidateJUnitXMLFile (some s) = Except.error ("error parsing XML: " ++ msg) := by
  simp [ValidateJUnitXMLFile, hterm, tokenLoop_error_of_terminal]

/-- Claim C10 witness: a stream whose only token is the testsuite start
element and which then hits a parse error. -/
theorem validateJUnitXMLFile_error_after_testsuite_witness :
    ValidateJUnitXMLFile
        (some ⟨[XmlToken.startElement "testsuite"], some "unexpected EOF"⟩)
      = Except.error ("error parsing XML: " ++ "unexpected EOF") :=
  validateJUnitXMLFile_error_after_testsuite
    ⟨[XmlToken.startElement "testsuite"], some "unexpected EOF"⟩ "unexpected EOF" rfl
    (by simp)

end TestnodUploader
